import Mathlib

/-!
Shallow embedding of `scripts/generate-release-notes.py` (function
`generate_release_notes`), together with proofs of the specified
properties of the script.

The process environment is modelled as an association list from
variable names to values.  An HTTP interaction is modelled by a
`World`: either the POST call raises (network failure) or it yields a
response with a status code and a body that may or may not be valid
JSON.  The file system is modelled by the contents of
`release_notes.md` (`Option String`, `none` meaning the file is
absent).  Opening a file with mode "w" truncates it before writing, so
a write failure is modelled by the number of characters written before
the failure (`WriteOutcome.failAfter`), with `openFail` for a failure
of `open` itself.
-/

namespace ReleaseNotes

/-- The process environment: an association list of variable names to values.
`os.environ.get k` is lookup. -/
def Env : Type := List (String × String)

/-- `os.environ.get(k)`: `some v` when the variable is set, `none` otherwise. -/
def envGet (env : Env) (k : String) : Option String :=
  List.lookup k env

/-- Python f-string rendering of an `os.environ.get` result: the value itself
when present, and the text `None` when absent (an f-string formats the
`None` object as the string "None"). -/
def pyStr : Option String → String
  | none => "None"
  | some s => s

/-- One role-tagged chat message of the request body. -/
structure Message where
  role : String
  content : String
deriving Repr, DecidableEq

/-- The request body `data` of the script: a model identifier and an ordered
list of messages. -/
structure RequestData where
  model : String
  messages : List Message
deriving Repr, DecidableEq

/-- The headers passed to `requests.post` in the script. -/
structure Headers where
  authorization : String
  contentType : String
  httpReferer : String
  xTitle : String
deriving Repr, DecidableEq

/-- The fixed system instruction text of the script (the triple-quoted string
literal, verbatim). -/
def systemContent : String :=
  "You are a helpful assistant that generates user-friendly release notes for Posthoot, an email campaign management platform. Follow these guidelines:\n\n                        1. Write in a clear, conversational tone that non-technical users can understand\n                        2. Group changes into categories like \x27🎉 New Features\x27, \x27✨ Improvements\x27, \x27🐛 Bug Fixes\x27, \x27🔒 Security\x27, and \x27🔧 Infrastructure\x27\n                        3. Explain changes from the user\x27s perspective - what they can do now that they couldn\x27t before\n                        4. Highlight exciting new capabilities in email campaigns, templates, contacts, team management, automation, and analytics\n                        5. Use simple, jargon-free language to explain technical changes like authentication, permissions, and API improvements\n                        6. Include relevant emojis to make the notes engaging and scannable (📨 for email features, 👥 for team features, 🔐 for auth features, etc.)\n                        7. Call out any changes that affect subscription features, SMTP configuration, or domain management\n                        8. Add helpful tips for getting the most out of new email automation and campaign features\n                        9. Thank users for their feedback and contributions to the email marketing platform\n                        10. Keep the tone positive and enthusiastic while being honest about fixes\n                        11. Format in an easy-to-read style with clear headings and sections\n                        12. Mention integration improvements with Google OAuth, Firebase, or payment systems when relevant\n                        13. Highlight features that improve email deliverability, campaign performance, or team collaboration\n                        14. Reference specific modules like Campaign Management, Template Management, Contact Management, Team Management, User Management, API Key Management, Automation, SMTP Configuration, Domain Management, or Webhook Management when applicable\n                        15. End with what\x27s coming next for the email marketing platform to build excitement\n\n                        Only return the formatted release notes, no other text."

/-- The user-message template with the four interpolation slots made explicit:
commit history, repository, release name, version. -/
def mkUser (c r n v : String) : String :=
  "Generate detailed release notes with the following information:\n\nCommit History: "
    ++ c ++ "\nRepository: " ++ r ++ "\nRelease Name: " ++ n ++ "\nVersion: " ++ v
    ++ "\n\nPlease analyze the commits and generate comprehensive release notes following the system guidelines."

/-- The user message content built by the script: the f-string interpolating
`os.environ.get` of the four variables. -/
def userContent (env : Env) : String :=
  "Generate detailed release notes with the following information:\n\nCommit History: "
    ++ pyStr (envGet env "COMMITS")
    ++ "\nRepository: " ++ pyStr (envGet env "GITHUB_REPOSITORY")
    ++ "\nRelease Name: " ++ pyStr (envGet env "DOCKERLIKE_RELEASE_NAME")
    ++ "\nVersion: " ++ pyStr (envGet env "NEW_VERSION")
    ++ "\n\nPlease analyze the commits and generate comprehensive release notes following the system guidelines."

/-- The `data` dictionary built by the script. -/
def requestData (env : Env) : RequestData :=
  { model := "meta-llama/llama-4-maverick"
    messages :=
      [ { role := "system", content := systemContent }
      , { role := "user", content := userContent env } ] }

/-- The headers dictionary built by the script.  The Authorization value is an
f-string (a missing key renders as "None"); the two metadata headers use
`os.environ.get` with default `''`. -/
def requestHeaders (env : Env) : Headers :=
  { authorization := "Bearer " ++ pyStr (envGet env "OPENROUTER_API_KEY")
    contentType := "application/json"
    httpReferer := (envGet env "SITE_URL").getD ""
    xTitle := (envGet env "SITE_NAME").getD "" }

/-- A JSON value, for the response body. -/
inductive Json where
  | null : Json
  | str : String → Json
  | num : Int → Json
  | boolean : Bool → Json
  | arr : List Json → Json
  | obj : List (String × Json) → Json

/-- Python `j[k]` on a decoded JSON value: field lookup succeeds only on an
object having the key; anything else raises (KeyError / TypeError). -/
def Json.getField : Json → String → Option Json
  | .obj fields, k => List.lookup k fields
  | _, _ => none

/-- Python `j[i]` on a decoded JSON value: index lookup succeeds only on an
array long enough; anything else raises (IndexError / TypeError). -/
def Json.getIndex : Json → Nat → Option Json
  | .arr xs, i => xs.get? i
  | _, _ => none

/-- The access path `response.json()["choices"][0]["message"]["content"]`:
`none` exactly when one of the four accesses raises. -/
def extractPath (j : Json) : Option Json :=
  (((j.getField "choices").bind (fun x => x.getIndex 0)).bind
      (fun x => x.getField "message")).bind
    (fun x => x.getField "content")

/-- Outcome of the `requests.post` call: the call itself may raise (network
failure), or a response arrives with a status code and a body. `body = none`
models a body that is not valid JSON, so that `response.json()` raises. -/
inductive NetResult where
  | netFail : NetResult
  | response (status : Nat) (body : Option Json) : NetResult

/-- Outcome of `with open("release_notes.md", "w") as f: f.write(content)`:
`ok` writes everything; `openFail` means `open` raises and the file is
untouched; `failAfter k` means `open` succeeded (truncating the file) and the
write failed after `k` characters were written. -/
inductive WriteOutcome where
  | ok : WriteOutcome
  | openFail : WriteOutcome
  | failAfter (k : Nat) : WriteOutcome

/-- The external world of one invocation: what the network does and what the
file system does. -/
structure World where
  net : NetResult
  write : WriteOutcome

/-- The observable result of one invocation: the request handed to
`requests.post` (`some` exactly when the call was reached), the final contents
of `release_notes.md` (`none` = absent), the process exit code, and whether
the `except` branch printed an error message. -/
structure RunResult where
  sentRequest : Option (Headers × RequestData)
  file : Option String
  exitCode : Nat
  printedError : Bool
deriving Repr

/-- The file-writing step.  Mode "w" truncates on a successful `open`; a
non-string `content` makes `f.write` raise TypeError after the truncation.
Returns the new file contents and whether the step succeeded. -/
def writeStep (content : Json) (w : WriteOutcome) (fs : Option String) :
    Option String × Bool :=
  match w with
  | .openFail => (fs, false)
  | .ok =>
    match content with
    | .str s => (some s, true)
    | _ => (some "", false)
  | .failAfter k =>
    match content with
    | .str s => (some (s.take k), false)
    | _ => (some "", false)

/-- `response.raise_for_status()` raises exactly for client-error and
server-error status codes. -/
def raisesForStatus (status : Nat) : Prop :=
  400 ≤ status ∧ status < 600

instance (status : Nat) : Decidable (raisesForStatus status) :=
  inferInstanceAs (Decidable (400 ≤ status ∧ status < 600))

/-- The whole `generate_release_notes` function: build the request, send it,
check the status, decode the body, extract the content, write the file; any
exception is caught by the single `except` clause, which prints the error and
exits with status 1.  `fs` is the prior contents of `release_notes.md`. -/
def run (env : Env) (w : World) (fs : Option String) : RunResult :=
  let req := some (requestHeaders env, requestData env)
  match w.net with
  | .netFail =>
    { sentRequest := req, file := fs, exitCode := 1, printedError := true }
  | .response status body =>
    if raisesForStatus status then
      { sentRequest := req, file := fs, exitCode := 1, printedError := true }
    else
      match body with
      | none =>
        { sentRequest := req, file := fs, exitCode := 1, printedError := true }
      | some j =>
        match extractPath j with
        | none =>
          { sentRequest := req, file := fs, exitCode := 1, printedError := true }
        | some content =>
          match writeStep content w.write fs with
          | (fs2, true) =>
            { sentRequest := req, file := fs2, exitCode := 0, printedError := false }
          | (fs2, false) =>
            { sentRequest := req, file := fs2, exitCode := 1, printedError := true }

/-- The invocation succeeds end to end: a response arrived, its status does
not raise, its body is JSON with a string at
`choices[0].message.content`, and the file write went through. -/
def successOutcome (w : World) : Prop :=
  ∃ status body j s,
    w.net = NetResult.response status body ∧ ¬ raisesForStatus status ∧
    body = some j ∧ extractPath j = some (Json.str s) ∧
    w.write = WriteOutcome.ok

/-- A response body of the shape the API returns on success, with the given
content string at `choices[0].message.content`. -/
def goodBody (s : String) : Json :=
  Json.obj [("choices", Json.arr [Json.obj [("message", Json.obj [("content", Json.str s)])]])]

/-- Concrete environment with all four interpolated variables set. -/
def envFull : Env :=
  [("COMMITS", "c1"), ("GITHUB_REPOSITORY", "r1"),
   ("DOCKERLIKE_RELEASE_NAME", "n1"), ("NEW_VERSION", "v1")]

/-- The content value the invocation tries to write: `some` exactly when the
run reaches the `open`/`write` step (response arrived, status does not raise,
body decodes, the access path succeeds). -/
def attemptedContent (w : World) : Option Json :=
  match w.net with
  | .netFail => none
  | .response status body =>
    if raisesForStatus status then none
    else body.bind extractPath

/-- The characters `f.write` would emit for a content value: the string
itself when it is a string, and nothing otherwise (a non-string makes
`f.write` raise before emitting anything). -/
def contentText : Json → String
  | .str s => s
  | _ => ""

/-- Concrete environment with three of the four interpolated variables set
and NEW_VERSION absent. -/
def envPartial : Env :=
  [("COMMITS", "c1"), ("GITHUB_REPOSITORY", "r1"),
   ("DOCKERLIKE_RELEASE_NAME", "n1")]

/-- Concrete world: a 200 response carrying content "Hello" and a file
write that fails after two characters. -/
def worldPartialWrite : World :=
  { net := NetResult.response 200 (some (goodBody "Hello"))
    write := WriteOutcome.failAfter 2 }

end ReleaseNotes

namespace ReleaseNotes

/-- The `requests.post` call is reached on every invocation: building the
request body never raises (f-strings format a missing variable as "None"),
so the request is always handed to the network layer, whatever the
environment and whatever happens afterwards. -/
theorem run_sent (env : Env) (w : World) (fs : Option String) :
    (run env w fs).sentRequest = some (requestHeaders env, requestData env) := by
  obtain ⟨net, write⟩ := w
  cases net with
  | netFail => rfl
  | response status body =>
    rcases body with _ | j
    · by_cases hst : raisesForStatus status <;> simp [run, hst]
    · by_cases hst : raisesForStatus status
      · simp [run, hst]
      · rcases hx : extractPath j with _ | content
        · simp [run, hst, hx]
        · rcases hw : writeStep content write fs with ⟨fs2, b⟩
          cases b <;> simp [run, hst, hx, hw]

/-- Unfolding of `successOutcome` into its useful shape. -/
theorem successOutcome_iff (net : NetResult) (write : WriteOutcome) :
    successOutcome ⟨net, write⟩ ↔
      ∃ status j s, net = NetResult.response status (some j) ∧
        ¬ raisesForStatus status ∧ extractPath j = some (Json.str s) ∧
        write = WriteOutcome.ok := by
  constructor
  · rintro ⟨st, b, j, s, hnet, hst, hb, hx, hw⟩
    subst hb
    exact ⟨st, j, s, hnet, hst, hx, hw⟩
  · rintro ⟨st, j, s, hnet, hst, hx, hw⟩
    exact ⟨st, some j, j, s, hnet, hst, rfl, hx, hw⟩

end ReleaseNotes

namespace ReleaseNotes

/-- C1: for every environment in which the four variables COMMITS,
GITHUB_REPOSITORY, DOCKERLIKE_RELEASE_NAME and NEW_VERSION have values
`c`, `r`, `n`, `v`, the request body has the fixed model identifier and
exactly two messages in the order system then user: the system message is
the fixed instruction text unchanged, and the user message is the template
with exactly those four values interpolated. -/
theorem request_body_interpolation (env : Env) (c r n v : String)
    (hc : envGet env "COMMITS" = some c)
    (hr : envGet env "GITHUB_REPOSITORY" = some r)
    (hn : envGet env "DOCKERLIKE_RELEASE_NAME" = some n)
    (hv : envGet env "NEW_VERSION" = some v) :
    requestData env =
      { model := "meta-llama/llama-4-maverick"
        messages :=
          [ { role := "system", content := systemContent }
          , { role := "user", content := mkUser c r n v } ] } := by
  simp [requestData, userContent, mkUser, hc, hr, hn, hv, pyStr]

/-- Witness for C1 at a concrete environment. -/
theorem request_body_interpolation_witness :
    requestData envFull =
      { model := "meta-llama/llama-4-maverick"
        messages :=
          [ { role := "system", content := systemContent }
          , { role := "user", content := mkUser "c1" "r1" "n1" "v1" } ] } :=
  request_body_interpolation envFull "c1" "r1" "n1" "v1" rfl rfl rfl rfl

/-- C2: for every response whose status does not raise and whose JSON body
has the string `s` at `choices[0].message.content`, the run writes exactly
`s` to release_notes.md and exits with status 0. -/
theorem success_writes_content (env : Env) (status : Nat) (j : Json)
    (s : String) (fs : Option String)
    (hst : ¬ raisesForStatus status)
    (hx : extractPath j = some (Json.str s)) :
    run env { net := NetResult.response status (some j), write := WriteOutcome.ok } fs =
      { sentRequest := some (requestHeaders env, requestData env)
        file := some s, exitCode := 0, printedError := false } := by
  simp [run, hst, hx, writeStep]

/-- Witness for C2: a 200 response with content "Hello" writes exactly
"Hello" and exits 0. -/
theorem success_writes_content_witness :
    run envFull
        { net := NetResult.response 200 (some (goodBody "Hello")), write := WriteOutcome.ok }
        none =
      { sentRequest := some (requestHeaders envFull, requestData envFull)
        file := some "Hello", exitCode := 0, printedError := false } :=
  success_writes_content envFull 200 (goodBody "Hello") "Hello" none (by decide) rfl

/-- C3: for every response whose status makes raise_for_status raise (a 4xx
or 5xx code), the run exits with status 1 and release_notes.md keeps its
prior state, whatever the body and whatever the file system would do. -/
theorem error_status_leaves_file (env : Env) (status : Nat)
    (body : Option Json) (wr : WriteOutcome) (fs : Option String)
    (hst : raisesForStatus status) :
    run env { net := NetResult.response status body, write := wr } fs =
      { sentRequest := some (requestHeaders env, requestData env)
        file := fs, exitCode := 1, printedError := true } := by
  simp [run, hst]

/-- Witness for C3: a 404 response with a well-formed body leaves the
pre-existing file untouched and exits 1. -/
theorem error_status_leaves_file_witness :
    run envFull
        { net := NetResult.response 404 (some (goodBody "Hello")), write := WriteOutcome.ok }
        (some "old") =
      { sentRequest := some (requestHeaders envFull, requestData envFull)
        file := some "old", exitCode := 1, printedError := true } :=
  error_status_leaves_file envFull 404 (some (goodBody "Hello")) WriteOutcome.ok
    (some "old") (by decide)

end ReleaseNotes

namespace ReleaseNotes

/-- C4: every failure — network failure, raising status, malformed or
missing JSON fields, write failure — is caught by the single top-level
except clause, which prints the error and exits with status 1; conversely
the run exits 0 and prints nothing exactly when the whole operation
succeeded. -/
theorem exit_one_iff_failure (env : Env) (w : World) (fs : Option String) :
    (successOutcome w ∧ (run env w fs).exitCode = 0 ∧ (run env w fs).printedError = false) ∨
    (¬ successOutcome w ∧ (run env w fs).exitCode = 1 ∧ (run env w fs).printedError = true) := by
  obtain ⟨net, write⟩ := w
  cases net with
  | netFail =>
    right
    refine ⟨?_, rfl, rfl⟩
    rw [successOutcome_iff]
    rintro ⟨st, j, s, hnet, -⟩
    exact NetResult.noConfusion hnet
  | response status body =>
    by_cases hst : raisesForStatus status
    · right
      refine ⟨?_, by simp [run, hst], by simp [run, hst]⟩
      rw [successOutcome_iff]
      rintro ⟨st, j, s, hnet, hst2, -⟩
      obtain ⟨rfl, -⟩ : status = st ∧ body = some j := by
        injection hnet with h1 h2
        exact ⟨h1, h2⟩
      exact hst2 hst
    · rcases body with _ | j
      · right
        refine ⟨?_, by simp [run, hst], by simp [run, hst]⟩
        rw [successOutcome_iff]
        rintro ⟨st, j, s, hnet, -⟩
        injection hnet with h1 h2
        exact Option.noConfusion h2
      · rcases hx : extractPath j with _ | content
        · right
          refine ⟨?_, by simp [run, hst, hx], by simp [run, hst, hx]⟩
          rw [successOutcome_iff]
          rintro ⟨st, j2, s, hnet, -, hx2, -⟩
          obtain ⟨-, rfl⟩ : status = st ∧ j = j2 := by
            injection hnet with h1 h2
            injection h2 with h2
            exact ⟨h1, h2⟩
          rw [hx] at hx2
          exact Option.noConfusion hx2
        · have hnotstr : (∀ s : String, content ≠ Json.str s) →
              ¬ successOutcome ⟨NetResult.response status (some j), write⟩ := by
            intro hc
            rw [successOutcome_iff]
            rintro ⟨st, j2, s, hnet, -, hx2, -⟩
            obtain ⟨-, rfl⟩ : status = st ∧ j = j2 := by
              injection hnet with h1 h2
              injection h2 with h2
              exact ⟨h1, h2⟩
            rw [hx] at hx2
            injection hx2 with hx2
            exact hc s hx2
          cases write with
          | ok =>
            cases content with
            | str s =>
              left
              refine ⟨?_, by simp [run, hst, hx, writeStep], by simp [run, hst, hx, writeStep]⟩
              rw [successOutcome_iff]
              exact ⟨status, j, s, rfl, hst, hx, rfl⟩
            | null =>
              exact Or.inr ⟨hnotstr (by intro s h; exact Json.noConfusion h),
                by simp [run, hst, hx, writeStep], by simp [run, hst, hx, writeStep]⟩
            | num n =>
              exact Or.inr ⟨hnotstr (by intro s h; exact Json.noConfusion h),
                by simp [run, hst, hx, writeStep], by simp [run, hst, hx, writeStep]⟩
            | boolean b =>
              exact Or.inr ⟨hnotstr (by intro s h; exact Json.noConfusion h),
                by simp [run, hst, hx, writeStep], by simp [run, hst, hx, writeStep]⟩
            | arr xs =>
              exact Or.inr ⟨hnotstr (by intro s h; exact Json.noConfusion h),
                by simp [run, hst, hx, writeStep], by simp [run, hst, hx, writeStep]⟩
            | obj fields =>
              exact Or.inr ⟨hnotstr (by intro s h; exact Json.noConfusion h),
                by simp [run, hst, hx, writeStep], by simp [run, hst, hx, writeStep]⟩
          | openFail =>
            right
            refine ⟨?_, by simp [run, hst, hx, writeStep], by simp [run, hst, hx, writeStep]⟩
            rw [successOutcome_iff]
            rintro ⟨st, j2, s, -, -, -, hw⟩
            exact WriteOutcome.noConfusion hw
          | failAfter k =>
            right
            refine ⟨?_, ?_, ?_⟩
            · rw [successOutcome_iff]
              rintro ⟨st, j2, s, -, -, -, hw⟩
              exact WriteOutcome.noConfusion hw
            · cases content <;> simp [run, hst, hx, writeStep]
            · cases content <;> simp [run, hst, hx, writeStep]

end ReleaseNotes

namespace ReleaseNotes

/-- C5: for every environment — whatever subset of the four interpolated
variables is absent — the request is still handed to the network layer (no
presence validation happens), and each absent variable renders at its slot
of the user message as the placeholder string "None", while the remaining
slots carry their environment values. -/
theorem missing_env_still_sent (env : Env) (w : World) (fs : Option String) :
    (run env w fs).sentRequest = some (requestHeaders env, requestData env) ∧
    (envGet env "COMMITS" = none →
      userContent env =
        mkUser "None" (pyStr (envGet env "GITHUB_REPOSITORY"))
          (pyStr (envGet env "DOCKERLIKE_RELEASE_NAME"))
          (pyStr (envGet env "NEW_VERSION"))) ∧
    (envGet env "GITHUB_REPOSITORY" = none →
      userContent env =
        mkUser (pyStr (envGet env "COMMITS")) "None"
          (pyStr (envGet env "DOCKERLIKE_RELEASE_NAME"))
          (pyStr (envGet env "NEW_VERSION"))) ∧
    (envGet env "DOCKERLIKE_RELEASE_NAME" = none →
      userContent env =
        mkUser (pyStr (envGet env "COMMITS"))
          (pyStr (envGet env "GITHUB_REPOSITORY")) "None"
          (pyStr (envGet env "NEW_VERSION"))) ∧
    (envGet env "NEW_VERSION" = none →
      userContent env =
        mkUser (pyStr (envGet env "COMMITS"))
          (pyStr (envGet env "GITHUB_REPOSITORY"))
          (pyStr (envGet env "DOCKERLIKE_RELEASE_NAME")) "None") := by
  refine ⟨run_sent env w fs, ?_, ?_, ?_, ?_⟩ <;>
    intro h <;> simp [userContent, mkUser, h, pyStr]

/-- Witness for C5: a mixed environment with only NEW_VERSION absent keeps
the three present values and renders the missing one as "None"; the empty
environment renders every slot as "None"; in both the request is sent. -/
theorem missing_env_still_sent_witness :
    (run envPartial { net := NetResult.netFail, write := WriteOutcome.ok } none).sentRequest =
        some (requestHeaders envPartial, requestData envPartial) ∧
    userContent envPartial = mkUser "c1" "r1" "n1" "None" ∧
    userContent [] = mkUser "None" "None" "None" "None" :=
  ⟨(missing_env_still_sent envPartial
      { net := NetResult.netFail, write := WriteOutcome.ok } none).1,
   (missing_env_still_sent envPartial
      { net := NetResult.netFail, write := WriteOutcome.ok } none).2.2.2.2 rfl,
   (missing_env_still_sent []
      { net := NetResult.netFail, write := WriteOutcome.ok } none).2.1 rfl⟩

/-- C6 as stated is false: a failure during the file write leaves a partial
state.  Concretely, with a 200 response carrying content "Hello" and a write
that fails after two characters, a prior file "old" ends up holding "He":
the run exits 1 yet the file is neither its prior state nor the completed
content. -/
theorem no_partial_state_counterexample :
    ¬ (∀ (env : Env) (w : World) (fs : Option String),
        (run env w fs).exitCode = 1 → (run env w fs).file = fs) := by
  intro h
  have h2 := h []
    { net := NetResult.response 200 (some (goodBody "Hello")), write := WriteOutcome.failAfter 2 }
    (some "old") (by decide)
  exact absurd h2 (by decide)

/-- C6 amended: a failure before the write step (network failure, raising
status, JSON or extraction failure) leaves release_notes.md in its prior
state, and so does a failing `open`; but a failure during the write itself
can leave the file holding a truncated prefix of the content being written
(possibly empty, since mode "w" truncates on open), so a partial state is
possible there. -/
theorem no_partial_state_amended (env : Env) (w : World) (fs : Option String)
    (h : (run env w fs).exitCode = 1) :
    (attemptedContent w = none → (run env w fs).file = fs) ∧
    (w.write = WriteOutcome.openFail → (run env w fs).file = fs) ∧
    (∀ c, attemptedContent w = some c → w.write ≠ WriteOutcome.openFail →
      ∃ k, (run env w fs).file = some ((contentText c).take k)) := by
  obtain ⟨net, write⟩ := w
  cases net with
  | netFail =>
    refine ⟨fun _ => rfl, fun _ => rfl, fun c hc => ?_⟩
    simp [attemptedContent] at hc
  | response status body =>
    by_cases hst : raisesForStatus status
    · refine ⟨fun _ => by simp [run, hst], fun _ => by simp [run, hst],
        fun c hc => ?_⟩
      simp [attemptedContent, hst] at hc
    · rcases body with _ | j
      · refine ⟨fun _ => by simp [run, hst], fun _ => by simp [run, hst],
          fun c hc => ?_⟩
        simp [attemptedContent, hst] at hc
      · rcases hx : extractPath j with _ | content
        · refine ⟨fun _ => by simp [run, hst, hx], fun _ => by simp [run, hst, hx],
            fun c hc => ?_⟩
          simp [attemptedContent, hst, hx] at hc
        · cases write with
          | openFail =>
            refine ⟨fun _ => by simp [run, hst, hx, writeStep],
              fun _ => by simp [run, hst, hx, writeStep], fun c hc hnopen => ?_⟩
            exact absurd rfl hnopen
          | ok =>
            refine ⟨fun hnone => ?_, fun hopen => ?_, fun c hc hnopen => ?_⟩
            · simp [attemptedContent, hst, hx] at hnone
            · exact WriteOutcome.noConfusion hopen
            · have hc2 : content = c := by
                simp [attemptedContent, hst, hx] at hc
                exact hc
              subst hc2
              cases content with
              | str s => simp [run, hst, hx, writeStep] at h
              | null =>
                exact ⟨0, by simp [run, hst, hx, writeStep, contentText, String.take]; rfl⟩
              | num n =>
                exact ⟨0, by simp [run, hst, hx, writeStep, contentText, String.take]; rfl⟩
              | boolean b =>
                exact ⟨0, by simp [run, hst, hx, writeStep, contentText, String.take]; rfl⟩
              | arr xs =>
                exact ⟨0, by simp [run, hst, hx, writeStep, contentText, String.take]; rfl⟩
              | obj fields =>
                exact ⟨0, by simp [run, hst, hx, writeStep, contentText, String.take]; rfl⟩
          | failAfter k0 =>
            refine ⟨fun hnone => ?_, fun hopen => ?_, fun c hc hnopen => ?_⟩
            · simp [attemptedContent, hst, hx] at hnone
            · exact WriteOutcome.noConfusion hopen
            · have hc2 : content = c := by
                simp [attemptedContent, hst, hx] at hc
                exact hc
              subst hc2
              cases content with
              | str s => exact ⟨k0, by simp [run, hst, hx, writeStep, contentText]⟩
              | null =>
                exact ⟨0, by simp [run, hst, hx, writeStep, contentText, String.take]; rfl⟩
              | num n =>
                exact ⟨0, by simp [run, hst, hx, writeStep, contentText, String.take]; rfl⟩
              | boolean b =>
                exact ⟨0, by simp [run, hst, hx, writeStep, contentText, String.take]; rfl⟩
              | arr xs =>
                exact ⟨0, by simp [run, hst, hx, writeStep, contentText, String.take]; rfl⟩
              | obj fields =>
                exact ⟨0, by simp [run, hst, hx, writeStep, contentText, String.take]; rfl⟩

/-- Witness for the amended C6: at the counterexample world (200 response
with content "Hello", write failing after two characters) the theorem
yields the truncated-prefix case. -/
theorem no_partial_state_amended_witness :
    ∃ k, (run [] worldPartialWrite (some "old")).file =
      some ((contentText (Json.str "Hello")).take k) :=
  (no_partial_state_amended [] worldPartialWrite (some "old") (by decide)).2.2
    (Json.str "Hello") rfl (by intro hcon; simp [worldPartialWrite] at hcon)

/-- C7: whatever a first run left in release_notes.md, a second run whose
response succeeds with content `s2` leaves the file containing exactly
`s2`: the file is overwritten, never appended to. -/
theorem second_run_overwrites (env1 env2 : Env) (w1 : World) (fs : Option String)
    (status : Nat) (j : Json) (s2 : String)
    (hst : ¬ raisesForStatus status)
    (hx : extractPath j = some (Json.str s2)) :
    (run env2 { net := NetResult.response status (some j), write := WriteOutcome.ok }
        ((run env1 w1 fs).file)).file = some s2 := by
  simp [run, hst, hx, writeStep]

/-- Witness for C7: a first run writes "first", a second run writes
"second", and the file ends up holding exactly "second". -/
theorem second_run_overwrites_witness :
    (run [] { net := NetResult.response 200 (some (goodBody "second")), write := WriteOutcome.ok }
        ((run []
            { net := NetResult.response 200 (some (goodBody "first")), write := WriteOutcome.ok }
            none).file)).file = some "second" :=
  second_run_overwrites [] []
    { net := NetResult.response 200 (some (goodBody "first")), write := WriteOutcome.ok }
    none 200 (goodBody "second") "second" (by decide) rfl

end ReleaseNotes

namespace ReleaseNotes

/-- C8: when SITE_URL or SITE_NAME is absent from the environment, the
corresponding header (HTTP-Referer, X-Title) still appears in the request
headers, with the empty string as its value. -/
theorem optional_headers_empty (env : Env) :
    (envGet env "SITE_URL" = none → (requestHeaders env).httpReferer = "") ∧
    (envGet env "SITE_NAME" = none → (requestHeaders env).xTitle = "") := by
  constructor <;> intro h <;> simp [requestHeaders, h]

/-- Witness for C8 at the empty environment: both optional headers are the
empty string. -/
theorem optional_headers_empty_witness :
    (requestHeaders []).httpReferer = "" ∧ (requestHeaders []).xTitle = "" :=
  ⟨(optional_headers_empty []).1 rfl, (optional_headers_empty []).2 rfl⟩

/-- C9: a non-raising status whose body carries the empty string at
`choices[0].message.content` makes the run write an empty release_notes.md,
truncating any previous content, and exit with status 0: no non-emptiness
check is performed. -/
theorem empty_content_written (env : Env) (status : Nat) (j : Json)
    (fs : Option String)
    (hst : ¬ raisesForStatus status)
    (hx : extractPath j = some (Json.str "")) :
    run env { net := NetResult.response status (some j), write := WriteOutcome.ok } fs =
      { sentRequest := some (requestHeaders env, requestData env)
        file := some "", exitCode := 0, printedError := false } := by
  simp [run, hst, hx, writeStep]

/-- Witness for C9: a 200 response with empty content truncates a file that
previously held "previous" and exits 0. -/
theorem empty_content_written_witness :
    run envFull
        { net := NetResult.response 200 (some (goodBody "")), write := WriteOutcome.ok }
        (some "previous") =
      { sentRequest := some (requestHeaders envFull, requestData envFull)
        file := some "", exitCode := 0, printedError := false } :=
  empty_content_written envFull 200 (goodBody "") (some "previous") (by decide) rfl

/-- C10: when OPENROUTER_API_KEY is absent from the environment, the
Authorization header is the literal string "Bearer None" and the request is
still handed to the network layer: no validation of the key happens before
the outbound call. -/
theorem missing_api_key_bearer_none (env : Env) (w : World) (fs : Option String)
    (h : envGet env "OPENROUTER_API_KEY" = none) :
    (requestHeaders env).authorization = "Bearer None" ∧
    (run env w fs).sentRequest = some (requestHeaders env, requestData env) := by
  refine ⟨?_, run_sent env w fs⟩
  simp [requestHeaders, h, pyStr]

/-- Witness for C10 at the empty environment. -/
theorem missing_api_key_bearer_none_witness :
    (requestHeaders []).authorization = "Bearer None" ∧
    (run [] { net := NetResult.netFail, write := WriteOutcome.ok } none).sentRequest =
      some (requestHeaders [], requestData []) :=
  missing_api_key_bearer_none [] { net := NetResult.netFail, write := WriteOutcome.ok } none rfl

end ReleaseNotes
